import Mathlib

/-!
Verification of the transcode admission and supervision pipeline of the
video-to-circle bot (src/handlers.py and src/video_processing.py).

The admission pipeline (the `video_to_circle` handler in src/handlers.py)
is embedded as a pure function over an explicit process state; the
conversion pipeline (`convert_video_to_circle` in src/video_processing.py)
is embedded as a pure function over an environment that fixes the outcome
of every external interaction (download, ffprobe, ffmpeg, delivery).
Randomness (`random.uniform`, `random.choice`) is an injected value,
floats are modelled as rationals, the file system as a list of paths,
and the metrics store (`metrics_db.log_event`) as an emitted event list.
-/

namespace Krujok

/-- One `metrics_db.log_event` call: the logging user, the event name and
the optional `error=` keyword.  The other keyword arguments
(`message_id`, `effect`, `video_duration`, `video_file_size`) carry no
control flow and are not modelled. -/
structure Event where
  userId : Int
  name : String
  error : Option String
deriving DecidableEq

/-- Entry of the `_media_group_first_message` dict together with the time
it was stored (used to model the `_forget_media_group` expiry task). -/
structure GroupEntry where
  firstMessageId : Int
  insertedAt : Nat
deriving DecidableEq

/-- The module-level mutable state of src/handlers.py:
`metrics_db` ban list, `_media_group_first_message`, the set of user ids
whose `_user_locks` entry is currently locked, and `_user_effect`. -/
structure HandlersState where
  banned : List Int
  mediaGroupFirstMessage : List (String × GroupEntry)
  userLocksHeld : List Int
  userEffect : List (Int × String)
deriving DecidableEq

/-- An inbound video message: `message.from_user.id` (0 when absent, per
`_track_user`), `message.message_id`, `message.media_group_id`,
`video.file_size` and `video.duration`. -/
structure Submission where
  userId : Int
  messageId : Int
  mediaGroupId : Option String
  fileSize : Option Int
  duration : Option Int
deriving DecidableEq

/-- Terminal decision of the validation part of `video_to_circle`
(src/handlers.py lines 146-226). `proceed` means the job goes on to
acquire the locks and run `convert_video_to_circle`. -/
inductive Admission where
  | bannedBlock
  | duplicateGroup (firstId : Int)
  | busy
  | rejectedFileSize
  | rejectedDuration
  | rejectedMemeDuration
  | proceed (effect : String)
deriving DecidableEq

/-- Lookup in `_media_group_first_message`, with the TTL of the deferred
`_forget_media_group` task applied: the task sleeps 300 seconds and then
pops the key, so an entry stored at time `t0` is visible up to
`t0 + 300` and gone strictly after. -/
def mediaGroupLookup (m : List (String × GroupEntry)) (now : Nat) (gid : String) :
    Option Int :=
  match m.find? (fun p => p.1 == gid) with
  | none => none
  | some p => if now ≤ p.2.insertedAt + 300 then some p.2.firstMessageId else none

/-- `_media_group_first_message[gid] = mid` (handlers.py line 159); the
newest entry shadows any expired one. -/
def mediaGroupInsert (m : List (String × GroupEntry)) (now : Nat) (gid : String)
    (mid : Int) : List (String × GroupEntry) :=
  (gid, ⟨mid, now⟩) :: m

/-- `_user_effect.get(user_id, "normal")` (handlers.py line 205). -/
def effectOf (st : HandlersState) (uid : Int) : String :=
  (((st.userEffect.find? (fun p => p.1 == uid))).map (fun p => p.2)).getD "normal"

/-- `video.file_size is not None and video.file_size >= 8 * 1024 * 1024`
(handlers.py line 179). -/
def sizeTooBig : Option Int → Bool
  | some s => decide (8 * 1024 * 1024 ≤ s)
  | none => false

/-- `video.duration is not None and video.duration > limit`
(handlers.py lines 192 and 207). -/
def durOver (limit : Int) : Option Int → Bool
  | some d => decide (limit < d)
  | none => false

/-- The `video_rejected` event of a validation rejection; the code logs it
only under `if user_id:` (handlers.py lines 180, 193, 208). -/
def rejectionEvents (uid : Int) (err : String) : List Event :=
  if uid ≠ 0 then [⟨uid, "video_rejected", some err⟩] else []

/-- Validation steps after the media-group and before the lock body:
per-user busy check (line 173), size check (line 179), duration check
(line 192), meme duration check (line 207); otherwise the job proceeds
with the user's selected effect. Returns the decision and the logged
events. -/
def admission_rest (st : HandlersState) (msg : Submission) :
    Admission × List Event :=
  if msg.userId ∈ st.userLocksHeld then (.busy, [])
  else if sizeTooBig msg.fileSize then
    (.rejectedFileSize, rejectionEvents msg.userId "file_size_limit")
  else if durOver 60 msg.duration then
    (.rejectedDuration, rejectionEvents msg.userId "duration_limit")
  else if effectOf st msg.userId = "meme" ∧ durOver 55 msg.duration = true then
    (.rejectedMemeDuration, rejectionEvents msg.userId "duration_limit_for_meme")
  else (.proceed (effectOf st msg.userId), [])

/-- Result of the validation part of `video_to_circle`: the decision, the
events logged along the way, and the updated
`_media_group_first_message` dict. -/
structure AdmissionResult where
  outcome : Admission
  events : List Event
  mediaGroupFirstMessage : List (String × GroupEntry)
deriving DecidableEq

/-- The media-group duplicate suppression (handlers.py lines 155-166):
a fresh group key stores the part and schedules the 300-second expiry; a
live key with a different part id is rejected as a duplicate; the same
part id (re-delivery) falls through.  Python truthiness makes an empty
`media_group_id` behave like `None`. -/
def admission_group (st : HandlersState) (now : Nat) (msg : Submission) :
    AdmissionResult :=
  match msg.mediaGroupId with
  | none =>
      ⟨(admission_rest st msg).1, (admission_rest st msg).2, st.mediaGroupFirstMessage⟩
  | some gid =>
      if gid = "" then
        ⟨(admission_rest st msg).1, (admission_rest st msg).2, st.mediaGroupFirstMessage⟩
      else
        match mediaGroupLookup st.mediaGroupFirstMessage now gid with
        | none =>
            ⟨(admission_rest st msg).1, (admission_rest st msg).2,
              mediaGroupInsert st.mediaGroupFirstMessage now gid msg.messageId⟩
        | some first =>
            if first ≠ msg.messageId then
              ⟨.duplicateGroup first, [], st.mediaGroupFirstMessage⟩
            else
              ⟨(admission_rest st msg).1, (admission_rest st msg).2,
                st.mediaGroupFirstMessage⟩

/-- The validation part of the `video_to_circle` handler
(src/handlers.py lines 146-226 before the lock body): ban check with its
`banned_block` event (`if user_id and metrics_db.is_banned(user_id)`),
then the media-group check, then `admission_rest`. -/
def video_to_circle_admission (st : HandlersState) (now : Nat) (msg : Submission) :
    AdmissionResult :=
  if msg.userId ≠ 0 ∧ msg.userId ∈ st.banned then
    ⟨.bannedBlock, [⟨msg.userId, "banned_block", none⟩], st.mediaGroupFirstMessage⟩
  else admission_group st now msg

/-! ## src/video_processing.py — command building -/

/-- A single-quote character, used inside ffmpeg filter expressions. -/
def apos : String := String.singleton (Char.ofNat 39)

/-- Whether `pat` occurs at the start of `s`. -/
def seqStarts : List Char → List Char → Bool
  | [], _ => true
  | _ :: _, [] => false
  | a :: ps, b :: ss => a == b && seqStarts ps ss

/-- Whether `pat` occurs contiguously anywhere in `s`. -/
def seqInside (pat : List Char) : List Char → Bool
  | [] => seqStarts pat []
  | b :: rest => seqStarts pat (b :: rest) || seqInside pat rest

/-- Whether the string `pat` occurs contiguously in the string `s`. -/
def strInside (s pat : String) : Bool := seqInside pat.toList s.toList

/-- Rendering of a Python float into the command string.  The exact digit
rendering of `repr(float)` is abstracted; no claim depends on it. -/
def fmtQ (q : ℚ) : String :=
  if q.den = 1 then toString q.num ++ ".0"
  else toString q.num ++ "/" ++ toString q.den

/-- `base = "crop='min(iw,ih)':'min(iw,ih)',scale=480:480"`
(video_processing.py line 66). -/
def base_filter : String :=
  "crop=" ++ apos ++ "min(iw,ih)" ++ apos ++ ":" ++ apos ++ "min(iw,ih)" ++ apos
    ++ ",scale=480:480"

/-- `seg_len = 1.5` (video_processing.py line 74). -/
def seg_len : ℚ := 3 / 2

/-- Segment selection of the `speed_slow` effect
(video_processing.py lines 74-86): `t1` and `t2` are the two
`random.uniform(0.0, max_start)` draws; they are order-normalized, pushed
apart to `min(t1 + seg_len, max_start)` when closer than `seg_len`, and
capped segment ends are computed.  Returns `(t1, t1_end, t2, t2_end)`. -/
def speed_slow_times (effective_duration t1 t2 : ℚ) : ℚ × ℚ × ℚ × ℚ :=
  let max_start := max (effective_duration - seg_len) 0
  let p := if t2 < t1 then (t2, t1) else (t1, t2)
  let a := p.1
  let b := if |p.2 - p.1| < seg_len then min (p.1 + seg_len) max_start else p.2
  let t1_end := min (a + seg_len) effective_duration
  let t2_end := min (b + seg_len) effective_duration
  (a, t1_end, b, t2_end)

/-- The `filter_complex` of the `speed_slow` effect
(video_processing.py lines 88-103). -/
def speed_slow_fc (effective_duration t1 t1_end t2 t2_end : ℚ) : String :=
  "[0:v]" ++ base_filter ++ ",split=5[v0][v1][v2][v3][v4];"
    ++ "[v0]trim=0:" ++ fmtQ t1 ++ ",setpts=PTS-STARTPTS[v0t];"
    ++ "[v1]trim=" ++ fmtQ t1 ++ ":" ++ fmtQ t1_end ++ ",setpts=(PTS-STARTPTS)/2[v1t];"
    ++ "[v2]trim=" ++ fmtQ t1_end ++ ":" ++ fmtQ t2 ++ ",setpts=PTS-STARTPTS[v2t];"
    ++ "[v3]trim=" ++ fmtQ t2 ++ ":" ++ fmtQ t2_end ++ ",setpts=(PTS-STARTPTS)*2[v3t];"
    ++ "[v4]trim=" ++ fmtQ t2_end ++ ":" ++ fmtQ effective_duration
    ++ ",setpts=PTS-STARTPTS[v4t];"
    ++ "[v0t][v1t][v2t][v3t][v4t]concat=n=5:v=1:a=0[v];"
    ++ "[0:a]asplit=5[a0][a1][a2][a3][a4];"
    ++ "[a0]atrim=0:" ++ fmtQ t1 ++ ",asetpts=PTS-STARTPTS[a0t];"
    ++ "[a1]atrim=" ++ fmtQ t1 ++ ":" ++ fmtQ t1_end
    ++ ",asetpts=PTS-STARTPTS,atempo=2[a1t];"
    ++ "[a2]atrim=" ++ fmtQ t1_end ++ ":" ++ fmtQ t2 ++ ",asetpts=PTS-STARTPTS[a2t];"
    ++ "[a3]atrim=" ++ fmtQ t2 ++ ":" ++ fmtQ t2_end
    ++ ",asetpts=PTS-STARTPTS,atempo=0.5[a3t];"
    ++ "[a4]atrim=" ++ fmtQ t2_end ++ ":" ++ fmtQ effective_duration
    ++ ",asetpts=PTS-STARTPTS[a4t];"
    ++ "[a0t][a1t][a2t][a3t][a4t]concat=n=5:v=0:a=1[a]"

/-- The `filter_complex` of the `flash` effect
(video_processing.py lines 126-130). -/
def flash_fc (effective_duration flash_len flash_start flash_end : ℚ) : String :=
  "[0:v]" ++ base_filter ++ ",trim=0:" ++ fmtQ effective_duration
    ++ ",setpts=PTS-STARTPTS[v0];"
    ++ "[1:v]" ++ base_filter ++ ",trim=0:" ++ fmtQ flash_len
    ++ ",setpts=PTS-STARTPTS[fv];"
    ++ "[v0][fv]overlay=0:0:enable=" ++ apos ++ "between(t," ++ fmtQ flash_start
    ++ "," ++ fmtQ flash_end ++ ")" ++ apos ++ "[v]"

/-- The `filter_complex` of the (unreachable from the submission surface)
`speed` effect (video_processing.py lines 142-151). -/
def speed_fc (end_start effective_duration : ℚ) : String :=
  "[0:v]" ++ base_filter ++ ",split=2[v0][v1];"
    ++ "[v0]trim=0:" ++ fmtQ end_start ++ ",setpts=PTS-STARTPTS[v0t];"
    ++ "[v1]trim=" ++ fmtQ end_start ++ ":" ++ fmtQ effective_duration
    ++ ",setpts=(PTS-STARTPTS)/2[v1t];"
    ++ "[v0t][v1t]concat=n=2:v=1:a=0[v];"
    ++ "[0:a]asplit=2[a0][a1];"
    ++ "[a0]atrim=0:" ++ fmtQ end_start ++ ",asetpts=PTS-STARTPTS[a0t];"
    ++ "[a1]atrim=" ++ fmtQ end_start ++ ":" ++ fmtQ effective_duration
    ++ ",asetpts=PTS-STARTPTS,atempo=2[a1t];"
    ++ "[a0t][a1t]concat=n=2:v=0:a=1[a]"

/-- The shake video filter (video_processing.py lines 167-170). -/
def shake_vf (end_start : ℚ) : String :=
  base_filter ++ ",rotate=0.04*sin(60*t):c=black@0:enable=" ++ apos ++ "gte(t,"
    ++ fmtQ end_start ++ ")" ++ apos
    ++ ",gblur=sigma=8:steps=2:enable=" ++ apos ++ "gte(t," ++ fmtQ end_start ++ ")"
    ++ apos

/-- The tail of `_build_ffmpeg_cmd` (video_processing.py lines 161-185):
the simple `-vf` command used for `normal`, `echo`, `shake` and any
downgraded effect.  With no audio the `-an` flag replaces the whole audio
part, including the echo `-af` filter. -/
def _ffmpeg_tail_cmd (input_file output_file : String) (out_duration end_start : ℚ)
    (effect : String) (with_audio : Bool) : String :=
  let vf := if effect = "shake" then shake_vf end_start else base_filter
  let af := if effect = "echo" then "-af \"aecho=0.8:0.9:1000|1800:0.35|0.25\" " else ""
  let audio_part := if with_audio then af ++ "-c:a aac -b:a 128k " else "-an "
  "ffmpeg -y -i \"" ++ input_file ++ "\" -vf \"" ++ vf ++ "\" -t " ++ fmtQ out_duration
    ++ " -c:v libx264 -preset veryfast -crf 23 " ++ audio_part
    ++ "\"" ++ output_file ++ "\""

/-- Injected outcomes of the randomness source and of the asset lookups
used by the command builders: the two `random.uniform(0.0, max_start)`
draws of `speed_slow`, the flash draw and the flash asset, and the meme
directory contents with the `random.choice` / `random.uniform` draws. -/
structure BuilderEnv where
  r1 : ℚ
  r2 : ℚ
  flashR : ℚ
  flashFound : Bool
  flashFile : String
  memeFiles : List String
  memeChoice : Nat
  insertAt : ℚ
deriving DecidableEq

/-- `_build_ffmpeg_cmd` (video_processing.py lines 60-185).  The source
reassigns `effect = "normal"` and falls through on a downgrade; since a
downgraded `"normal"` matches none of the later effect branches, that is
rendered here as a direct dispatch to the final `-vf` command.  The
`meme` branch raises `RuntimeError`, modelled as `Except.error`. -/
def _build_ffmpeg_cmd (input_file output_file : String) (duration : ℚ)
    (effect : String) (with_audio : Bool) (env : BuilderEnv) :
    Except String String :=
  let effective_duration := min duration 60
  let out_duration := effective_duration
  let end_start := max (effective_duration - 2) 0
  if effect = "speed_slow" then
    if effective_duration < 3 ∨ with_audio = false then
      .ok (_ffmpeg_tail_cmd input_file output_file out_duration end_start "normal"
        with_audio)
    else
      let td := speed_slow_times effective_duration env.r1 env.r2
      .ok ("ffmpeg -y -i \"" ++ input_file ++ "\" -filter_complex \""
        ++ speed_slow_fc effective_duration td.1 td.2.1 td.2.2.1 td.2.2.2
        ++ "\" -map \"[v]\" -map \"[a]\" -t " ++ fmtQ out_duration
        ++ " -c:v libx264 -preset veryfast -crf 23 -c:a aac -b:a 128k \""
        ++ output_file ++ "\"")
  else if effect = "flash" then
    if with_audio = false then
      .ok (_ffmpeg_tail_cmd input_file output_file out_duration end_start "normal"
        with_audio)
    else if env.flashFound = false then
      -- source: return _build_ffmpeg_cmd(input_file, output_file, duration,
      -- "normal", with_audio=with_audio)
      .ok (_ffmpeg_tail_cmd input_file output_file out_duration end_start "normal"
        with_audio)
    else
      let flash_len : ℚ := 3
      let flash_max_start := max (effective_duration - flash_len) 0
      let flash_start := if 0 < flash_max_start then env.flashR else 0
      let flash_end := min (flash_start + flash_len) effective_duration
      .ok ("ffmpeg -y -i \"" ++ input_file ++ "\" -stream_loop -1 -i \""
        ++ env.flashFile ++ "\" -filter_complex \""
        ++ flash_fc effective_duration flash_len flash_start flash_end
        ++ "\" -map \"[v]\" -map 0:a? -t " ++ fmtQ out_duration
        ++ " -c:v libx264 -preset veryfast -crf 23 -c:a aac -b:a 128k \""
        ++ output_file ++ "\"")
  else if effect = "speed" then
    if with_audio = false then
      .ok (_ffmpeg_tail_cmd input_file output_file out_duration end_start "normal"
        with_audio)
    else
      .ok ("ffmpeg -y -i \"" ++ input_file ++ "\" -filter_complex \""
        ++ speed_fc end_start effective_duration
        ++ "\" -map \"[v]\" -map \"[a]\" -t " ++ fmtQ out_duration
        ++ " -c:v libx264 -preset veryfast -crf 23 -c:a aac -b:a 128k \""
        ++ output_file ++ "\"")
  else if effect = "meme" then
    .error "meme effect must be handled by _build_meme_insert_cmd"
  else
    .ok (_ffmpeg_tail_cmd input_file output_file out_duration end_start effect
      with_audio)

/-- The `filter_complex` of the meme insertion
(video_processing.py lines 220-233). -/
def meme_fc (effective_duration meme_len insert_at : ℚ) : String :=
  "[0:v]" ++ base_filter ++ ",trim=0:" ++ fmtQ effective_duration
    ++ ",setpts=PTS-STARTPTS[v0];"
    ++ "[1:v]" ++ base_filter ++ ",trim=0:" ++ fmtQ meme_len
    ++ ",setpts=PTS-STARTPTS[mv];"
    ++ "[v0]split=2[vpre][vpost];"
    ++ "[vpre]trim=0:" ++ fmtQ insert_at ++ ",setpts=PTS-STARTPTS[vpre_t];"
    ++ "[vpost]trim=" ++ fmtQ insert_at ++ ":" ++ fmtQ effective_duration
    ++ ",setpts=PTS-STARTPTS[vpost_t];"
    ++ "[vpre_t][mv][vpost_t]concat=n=3:v=1:a=0[v];"
    ++ "[0:a]atrim=0:" ++ fmtQ effective_duration ++ ",asetpts=PTS-STARTPTS[a0];"
    ++ "[1:a]atrim=0:" ++ fmtQ meme_len ++ ",asetpts=PTS-STARTPTS[ma];"
    ++ "[a0]asplit=2[apre][apost];"
    ++ "[apre]atrim=0:" ++ fmtQ insert_at ++ ",asetpts=PTS-STARTPTS[apre_t];"
    ++ "[apost]atrim=" ++ fmtQ insert_at ++ ":" ++ fmtQ effective_duration
    ++ ",asetpts=PTS-STARTPTS[apost_t];"
    ++ "[apre_t][ma][apost_t]concat=n=3:v=0:a=1[a]"

/-- `_build_meme_insert_cmd` (video_processing.py lines 200-239).  The
fallbacks call `_build_ffmpeg_cmd(..., "normal", ...)`, which is exactly
the `-vf` tail with the recomputed `out_duration = effective_duration`. -/
def _build_meme_insert_cmd (input_file output_file : String) (duration : ℚ)
    (with_audio : Bool) (env : BuilderEnv) : String :=
  let effective_duration := min duration 60
  let meme_len : ℚ := 5
  let out_duration := min 60 (effective_duration + meme_len)
  let end_start := max (effective_duration - 2) 0
  if with_audio = false then
    _ffmpeg_tail_cmd input_file output_file effective_duration end_start "normal" false
  else if env.memeFiles = [] then
    _ffmpeg_tail_cmd input_file output_file effective_duration end_start "normal"
      with_audio
  else
    let meme_file := env.memeFiles.getD env.memeChoice ""
    let insert_at := if 0 < effective_duration then env.insertAt else 0
    "ffmpeg -y -i \"" ++ input_file ++ "\" -stream_loop -1 -i \"" ++ meme_file
      ++ "\" -filter_complex \"" ++ meme_fc effective_duration meme_len insert_at
      ++ "\" -map \"[v]\" -map \"[a]\" -t " ++ fmtQ out_duration
      ++ " -c:v libx264 -preset veryfast -crf 23 -c:a aac -b:a 128k \""
      ++ output_file ++ "\""

/-- The command dispatch of `convert_video_to_circle`
(video_processing.py lines 276-279). -/
def convert_cmd (input_file output_file : String) (duration : ℚ) (effect : String)
    (with_audio : Bool) (env : BuilderEnv) : Except String String :=
  if effect = "meme" then
    .ok (_build_meme_insert_cmd input_file output_file duration with_audio env)
  else
    _build_ffmpeg_cmd input_file output_file duration effect with_audio env

/-! ## src/video_processing.py — supervised conversion -/

/-- How a subprocess is started: `asyncio.create_subprocess_shell` takes a
single shell command string, `asyncio.create_subprocess_exec` would take
a program plus a structured argument list. -/
inductive Invocation where
  | shell (cmd : String)
  | argv (prog : String) (args : List String)
deriving DecidableEq

/-- The `finally` block of `convert_video_to_circle`
(video_processing.py lines 387-392): `if os.path.exists(f): os.remove(f)`
for the input and the output temp file, on a file system modelled as a
list of paths. -/
def cleanup (input_file output_file : String) (fs : List String) : List String :=
  fs.filter (fun p => p != input_file && p != output_file)

/-- Terminal status of one `convert_video_to_circle` run: the generic
`except` path (download/probe/build/delivery exceptions), the 300-second
timeout, a non-zero ffmpeg exit, or success. -/
inductive ConvOutcome where
  | excepted
  | timeout
  | ffmpegFailed (code : Int)
  | delivered
deriving DecidableEq

/-- Fixed outcomes of the external interactions of one
`convert_video_to_circle` run: whether `bot.download` succeeds (and, when
it fails, whether the partly-written input file exists), whether
`get_duration` parses a float, the probed duration and audio presence,
the randomness/assets for the builder, whether the wall clock exceeds 300
seconds before ffmpeg finishes, ffmpeg's exit code, whether the output
file exists on a failed/killed run, and whether `answer_video_note`
delivery succeeds.  Status-message edits are modelled as infallible. -/
structure ConvertEnv where
  downloadOk : Bool
  downloadLeftFile : Bool
  probeOk : Bool
  duration : ℚ
  hasAudio : Bool
  builder : BuilderEnv
  timedOut : Bool
  exitCode : Int
  outputCreated : Bool
  deliveryOk : Bool
deriving DecidableEq

/-- Result of one `convert_video_to_circle` run: terminal status, logged
events in order, the file system afterwards, and the subprocess
invocation used for the transform tool (none if it was never spawned). -/
structure ConvertResult where
  outcome : ConvOutcome
  events : List Event
  fs : List String
  invocation : Option Invocation
deriving DecidableEq

/-- `metrics_db.log_event(user_id, "video_start", ...)` under `if user_id:`
(video_processing.py lines 246-254). -/
def startEvent (uid : Int) : List Event :=
  if uid ≠ 0 then [⟨uid, "video_start", none⟩] else []

/-- A `video_error` event under `if user_id:`. -/
def errorEvent (uid : Int) (err : String) : List Event :=
  if uid ≠ 0 then [⟨uid, "video_error", some err⟩] else []

/-- `metrics_db.log_event(user_id, "video_success", ...)` under
`if user_id:` (video_processing.py lines 360-368). -/
def successEvent (uid : Int) : List Event :=
  if uid ≠ 0 then [⟨uid, "video_success", none⟩] else []

/-- `convert_video_to_circle` (video_processing.py lines 242-392):
`video_start` event, download, probe, command build, shell spawn,
progress loop with the 300-second wall-clock timeout (kill + wait +
`video_error error="timeout_5m"`), exit code check
(`video_error error="ffmpeg_nonzero_returncode..."`), delivery,
`video_success`; any exception is caught and logged as `video_error`
(the messages of the exception paths are abstracted to fixed tokens);
the `finally` block removes both temp files on every path. -/
def convert_video_to_circle (uid : Int) (effect : String) (env : ConvertEnv)
    (fs : List String) (input_file output_file : String) : ConvertResult :=
  let ev0 := startEvent uid
  if env.downloadOk = false then
    { outcome := .excepted, events := ev0 ++ errorEvent uid "download_error",
      fs := cleanup input_file output_file
        (if env.downloadLeftFile then input_file :: fs else fs),
      invocation := none }
  else
    let fs1 := input_file :: fs
    if env.probeOk = false then
      { outcome := .excepted, events := ev0 ++ errorEvent uid "probe_error",
        fs := cleanup input_file output_file fs1, invocation := none }
    else
      match convert_cmd input_file output_file env.duration effect env.hasAudio
          env.builder with
      | .error e =>
          { outcome := .excepted, events := ev0 ++ errorEvent uid e,
            fs := cleanup input_file output_file fs1, invocation := none }
      | .ok cmd =>
          if env.timedOut then
            { outcome := .timeout, events := ev0 ++ errorEvent uid "timeout_5m",
              fs := cleanup input_file output_file
                (if env.outputCreated then output_file :: fs1 else fs1),
              invocation := some (.shell cmd) }
          else if env.exitCode ≠ 0 then
            { outcome := .ffmpegFailed env.exitCode,
              events := ev0 ++ errorEvent uid "ffmpeg_nonzero_returncode",
              fs := cleanup input_file output_file
                (if env.outputCreated then output_file :: fs1 else fs1),
              invocation := some (.shell cmd) }
          else if env.deliveryOk = false then
            { outcome := .excepted, events := ev0 ++ errorEvent uid "delivery_error",
              fs := cleanup input_file output_file (output_file :: fs1),
              invocation := some (.shell cmd) }
          else
            { outcome := .delivered, events := ev0 ++ successEvent uid,
              fs := cleanup input_file output_file (output_file :: fs1),
              invocation := some (.shell cmd) }

/-- Terminal status of one whole submission: a validation rejection (no
conversion started, no temp files created) or a conversion outcome. -/
inductive HandleOutcome where
  | rejected (a : Admission)
  | converted (c : ConvOutcome)
deriving DecidableEq

/-- Result of one whole submission. -/
structure HandleResult where
  outcome : HandleOutcome
  events : List Event
  fs : List String
  invocation : Option Invocation
deriving DecidableEq

/-- One whole submission: the validation part of `video_to_circle`
followed, only on `proceed`, by `convert_video_to_circle` with the
selected effect (handlers.py lines 221-226). -/
def handle (st : HandlersState) (now : Nat) (msg : Submission) (env : ConvertEnv)
    (fs : List String) (input_file output_file : String) : HandleResult :=
  let a := video_to_circle_admission st now msg
  match a.outcome with
  | .proceed eff =>
      let c := convert_video_to_circle msg.userId eff env fs input_file output_file
      { outcome := .converted c.outcome, events := a.events ++ c.events,
        fs := c.fs, invocation := c.invocation }
  | o => { outcome := .rejected o, events := a.events, fs := fs, invocation := none }

/-! ## Concurrency gate (handlers.py lines 168-226)

The per-user locks and `_global_video_lock` are `asyncio.Lock`s used by
cooperatively scheduled handler tasks.  The lock body of
`video_to_circle` is modelled as a transition system over a set of tasks:
an arrived task whose user lock is held is rejected busy (line 173-175,
this check through the validations to `async with lock` contains no
await, so it is one atomic step); otherwise it either fails validation or
atomically takes the per-user lock and waits for the global slot, which
is granted only when no task holds it (`async with _global_video_lock`);
finishing releases the slot and the user lock. -/

/-- Phase of one handler task. -/
inductive Phase where
  | arrived (passes : Bool)
  | rejectedBusy
  | rejectedOther
  | waitingGlobal
  | inTranscode
  | done
deriving DecidableEq

/-- One handler task: the submitting user and the task's phase. -/
structure GTask where
  user : Int
  phase : Phase
deriving DecidableEq

/-- State of the gate: the tasks (indexed by position), the users whose
per-user lock is held, and the task indices holding the global slot. -/
structure GateSys where
  tasks : List GTask
  userLocks : List Int
  globalHolders : List Nat
deriving DecidableEq

/-- The task at index `i`. -/
def getTask (s : GateSys) (i : Nat) : Option GTask := s.tasks.get? i

/-- Replace the phase of task `i` (whose user is `u`). -/
def setPhase (s : GateSys) (i : Nat) (u : Int) (p : Phase) : GateSys :=
  { s with tasks := s.tasks.set i ⟨u, p⟩ }

/-- Atomic steps of the gate. -/
inductive GateStep : GateSys → GateSys → Prop where
  | busy {s : GateSys} {i : Nat} {u : Int} {b : Bool} :
      getTask s i = some ⟨u, .arrived b⟩ → u ∈ s.userLocks →
      GateStep s (setPhase s i u .rejectedBusy)
  | rejectOther {s : GateSys} {i : Nat} {u : Int} :
      getTask s i = some ⟨u, .arrived false⟩ → u ∉ s.userLocks →
      GateStep s (setPhase s i u .rejectedOther)
  | acquireUser {s : GateSys} {i : Nat} {u : Int} :
      getTask s i = some ⟨u, .arrived true⟩ → u ∉ s.userLocks →
      GateStep s { setPhase s i u .waitingGlobal with userLocks := u :: s.userLocks }
  | acquireGlobal {s : GateSys} {i : Nat} {u : Int} :
      getTask s i = some ⟨u, .waitingGlobal⟩ → s.globalHolders = [] →
      GateStep s { setPhase s i u .inTranscode with globalHolders := [i] }
  | finish {s : GateSys} {i : Nat} {u : Int} :
      getTask s i = some ⟨u, .inTranscode⟩ →
      GateStep s { setPhase s i u .done with
                     globalHolders := s.globalHolders.erase i,
                     userLocks := s.userLocks.erase u }

/-- States reachable from a start state where every task has just
arrived and no lock is held. -/
inductive GateReachable : GateSys → Prop where
  | init (ts : List GTask) :
      (∀ t ∈ ts, ∃ b, t.phase = Phase.arrived b) → GateReachable ⟨ts, [], []⟩
  | step {s s' : GateSys} : GateReachable s → GateStep s s' → GateReachable s'

/-! ## Theorems -/

/-- The property C3 asserts of the chosen `speed_slow` segments
`(t1, t1_end, t2, t2_end)`: order-normalized (earlier start first), both
starts drawn from `[0, duration - 1.5]`, and non-overlapping (the first
segment's end at most the second segment's start). -/
@[reducible] def SpeedSlowSegmentsSpec (d r1 r2 : ℚ) : Prop :=
  (speed_slow_times d r1 r2).1 ≤ (speed_slow_times d r1 r2).2.2.1 ∧
  0 ≤ (speed_slow_times d r1 r2).1 ∧
  (speed_slow_times d r1 r2).1 ≤ d - seg_len ∧
  0 ≤ (speed_slow_times d r1 r2).2.2.1 ∧
  (speed_slow_times d r1 r2).2.2.1 ≤ d - seg_len ∧
  (speed_slow_times d r1 r2).2.1 ≤ (speed_slow_times d r1 r2).2.2.1

/-- What actually holds of the chosen segments: order-normalized and
in-range always, but non-overlapping only when the normalized earlier
start leaves room for both segments (`t1 + 1.5 ≤ duration - 1.5`) or the
two draws already differ by at least `1.5`; otherwise the second start is
clamped to `duration - 1.5` and the segments overlap. -/
@[reducible] def SpeedSlowSegmentsAmended (d r1 r2 : ℚ) : Prop :=
  (speed_slow_times d r1 r2).1 ≤ (speed_slow_times d r1 r2).2.2.1 ∧
  0 ≤ (speed_slow_times d r1 r2).1 ∧
  (speed_slow_times d r1 r2).1 ≤ d - seg_len ∧
  0 ≤ (speed_slow_times d r1 r2).2.2.1 ∧
  (speed_slow_times d r1 r2).2.2.1 ≤ d - seg_len ∧
  (((speed_slow_times d r1 r2).1 + seg_len ≤ d - seg_len ∨ seg_len ≤ |r2 - r1|) →
    (speed_slow_times d r1 r2).2.1 ≤ (speed_slow_times d r1 r2).2.2.1)

/-- C3 (counterexample): with effective duration `3` and draws `1` and
`5/4` (both in `[0, 3 - 1.5]`), the selection is
`(t1, t1_end, t2, t2_end) = (1, 5/2, 3/2, 3)`: the first segment's end
`5/2` exceeds the second segment's start `3/2`, so the two 1.5-second
segments overlap, refuting the claimed non-overlap. -/
theorem c3_counterexample :
    ((3 : ℚ) ≤ 3 ∧ (0 : ℚ) ≤ 1 ∧ (1 : ℚ) ≤ 3 - seg_len ∧ (0 : ℚ) ≤ 5 / 4 ∧
      (5 / 4 : ℚ) ≤ 3 - seg_len) ∧
    speed_slow_times 3 1 (5 / 4) = (1, 5 / 2, 3 / 2, 3) ∧
    ¬ SpeedSlowSegmentsSpec 3 1 (5 / 4) := by
  refine ⟨by norm_num [seg_len], ?_, ?_⟩
  · norm_num [speed_slow_times, seg_len, abs_lt, min_def, max_def, Prod.ext_iff]
  · norm_num [SpeedSlowSegmentsSpec, speed_slow_times, seg_len, abs_lt, min_def,
      max_def]

/-- C3 (amended): for every `speed_slow` build with effective duration
`≥ 3` and draws in `[0, duration - 1.5]`, the two segments are
order-normalized with starts in `[0, duration - 1.5]`; they are
non-overlapping whenever the earlier start is at most `duration - 3` or
the draws differ by at least `1.5`, but not in general. -/
theorem c3_segments (d r1 r2 : ℚ) (hd : 3 ≤ d) (h10 : 0 ≤ r1)
    (h11 : r1 ≤ d - seg_len) (h20 : 0 ≤ r2) (h21 : r2 ≤ d - seg_len) :
    SpeedSlowSegmentsAmended d r1 r2 := by
  have hs32 : seg_len = 3 / 2 := rfl
  have hseg0 : (0 : ℚ) ≤ seg_len := by rw [hs32]; norm_num
  have hm : max (d - seg_len) 0 = d - seg_len := max_eq_left (by linarith)
  unfold SpeedSlowSegmentsAmended speed_slow_times
  dsimp only
  rw [hm]
  rcases lt_or_ge r2 r1 with h1 | h1
  · rw [if_pos h1]
    dsimp only
    by_cases h2 : |r1 - r2| < seg_len
    · rw [if_pos h2]
      refine ⟨le_min (by linarith) (by linarith), h20, h21,
        le_min (by linarith) (by linarith), min_le_right _ _, ?_⟩
      rintro (hroom | hfar)
      · rw [min_eq_left (by linarith), min_eq_left hroom]
      · rw [abs_sub_comm] at hfar
        linarith
    · rw [if_neg h2]
      have hfar : seg_len ≤ r1 - r2 := by
        have hh := not_lt.mp h2
        rwa [abs_of_nonneg (by linarith : (0 : ℚ) ≤ r1 - r2)] at hh
      refine ⟨by linarith, h20, h21, h10, h11, ?_⟩
      intro _
      exact le_trans (min_le_left _ _) (by linarith)
  · rw [if_neg (not_lt.mpr h1)]
    dsimp only
    by_cases h2 : |r2 - r1| < seg_len
    · rw [if_pos h2]
      refine ⟨le_min (by linarith) (by linarith), h10, h11,
        le_min (by linarith) (by linarith), min_le_right _ _, ?_⟩
      rintro (hroom | hfar)
      · rw [min_eq_left (by linarith), min_eq_left hroom]
      · linarith
    · rw [if_neg h2]
      have hfar : seg_len ≤ r2 - r1 := by
        have hh := not_lt.mp h2
        rwa [abs_of_nonneg (by linarith : (0 : ℚ) ≤ r2 - r1)] at hh
      refine ⟨h1, h10, h11, h20, h21, ?_⟩
      intro _
      exact le_trans (min_le_left _ _) (by linarith)

/-- C3 witness: the amended statement applied at duration `4` with draws
`0` and `2`. -/
theorem c3_segments_witness :
    ((3 : ℚ) ≤ 4 ∧ (0 : ℚ) ≤ 0 ∧ (0 : ℚ) ≤ 4 - seg_len ∧ (0 : ℚ) ≤ 2 ∧
      (2 : ℚ) ≤ 4 - seg_len) ∧ SpeedSlowSegmentsAmended 4 0 2 :=
  ⟨by norm_num [seg_len],
    c3_segments 4 0 2 (by norm_num) (by norm_num) (by norm_num [seg_len])
      (by norm_num) (by norm_num [seg_len])⟩

set_option maxRecDepth 100000 in
/-- C9: an `echo` build without audio produces exactly the command the
`normal` effect produces without audio: the `-af aecho` filter is set
(video_processing.py line 165) but the audio part is replaced whole by
`-an` (line 176), so the output has no audio stream and no echo filter —
the requested effect is silently not applied.  Concretely, the produced
command contains `-an` and does not contain `aecho`. -/
theorem c9_echo_no_audio :
    (∀ (input_file output_file : String) (d : ℚ) (env : BuilderEnv),
      _build_ffmpeg_cmd input_file output_file d "echo" false env
        = _build_ffmpeg_cmd input_file output_file d "normal" false env) ∧
    _build_ffmpeg_cmd "input_a.mp4" "circle_b.mp4" 10 "echo" false
        ⟨0, 0, 0, false, "", [], 0, 0⟩
      = .ok (_ffmpeg_tail_cmd "input_a.mp4" "circle_b.mp4" 10 8 "echo" false) ∧
    strInside (_ffmpeg_tail_cmd "input_a.mp4" "circle_b.mp4" 10 8 "echo" false)
      "-an " = true ∧
    strInside (_ffmpeg_tail_cmd "input_a.mp4" "circle_b.mp4" 10 8 "echo" false)
      "aecho" = false := by
  exact ⟨fun i o d env => rfl, rfl, by decide, by decide⟩

/-- C9 witness: the downgrade equality evaluated at a concrete input. -/
theorem c9_echo_no_audio_witness :
    _build_ffmpeg_cmd "in.mp4" "out.mp4" 5 "echo" false ⟨0, 0, 0, false, "", [], 0, 0⟩
      = _build_ffmpeg_cmd "in.mp4" "out.mp4" 5 "normal" false
          ⟨0, 0, 0, false, "", [], 0, 0⟩ :=
  c9_echo_no_audio.1 "in.mp4" "out.mp4" 5 ⟨0, 0, 0, false, "", [], 0, 0⟩

/-- The media-group check lets the submission through: no (non-empty)
group key, a fresh key, or a re-delivery of the recorded first part. -/
def groupPass (st : HandlersState) (now : Nat) (msg : Submission) : Prop :=
  ∀ gid, msg.mediaGroupId = some gid → gid ≠ "" →
    mediaGroupLookup st.mediaGroupFirstMessage now gid = none ∨
    mediaGroupLookup st.mediaGroupFirstMessage now gid = some msg.messageId

/-- When the ban check and the media-group check pass, the admission
decision and events are those of the remaining validations. -/
lemma admission_outcome_events (st : HandlersState) (now : Nat) (msg : Submission)
    (hban : ¬(msg.userId ≠ 0 ∧ msg.userId ∈ st.banned))
    (hgrp : groupPass st now msg) :
    (video_to_circle_admission st now msg).outcome = (admission_rest st msg).1 ∧
    (video_to_circle_admission st now msg).events = (admission_rest st msg).2 := by
  unfold video_to_circle_admission admission_group
  rw [if_neg hban]
  cases hmg : msg.mediaGroupId with
  | none => exact ⟨rfl, rfl⟩
  | some gid =>
      dsimp only
      by_cases hgid : gid = ""
      · rw [if_pos hgid]
        exact ⟨rfl, rfl⟩
      · rw [if_neg hgid]
        rcases hgrp gid hmg hgid with hnone | hsome
        · rw [hnone]
          exact ⟨rfl, rfl⟩
        · rw [hsome]
          dsimp only
          rw [if_neg (by simp)]
          exact ⟨rfl, rfl⟩

/-- The per-rejection event bookkeeping C1 is about, as a predicate on
the deciding user, the admission decision and the logged events. -/
def C1PostOn (uid : Int) (o : Admission) (e : List Event) : Prop :=
  (o = .bannedBlock → e.length = 1) ∧
  (uid ≠ 0 →
    (o = .rejectedFileSize ∨ o = .rejectedDuration ∨ o = .rejectedMemeDuration) →
    e.length = 1) ∧
  (∀ f, o = .duplicateGroup f → e = []) ∧
  (o = .busy → e = [])

lemma c1on_rest (st : HandlersState) (msg : Submission) :
    C1PostOn msg.userId (admission_rest st msg).1 (admission_rest st msg).2 := by
  unfold C1PostOn admission_rest rejectionEvents
  split_ifs <;> simp_all

/-- C1 (amended): the `banned_block` rejection and — for a submission
with a known sender — the size, duration and meme-duration rejections
each record exactly one event; the duplicate-group-part rejection
(handlers.py lines 161-166) and the per-user-busy rejection (lines
173-175) record no event at all, contrary to the claim. -/
theorem c1_rejection_events (st : HandlersState) (now : Nat) (msg : Submission) :
    C1PostOn msg.userId (video_to_circle_admission st now msg).outcome
      (video_to_circle_admission st now msg).events := by
  unfold video_to_circle_admission admission_group
  split_ifs with hban
  · simp [C1PostOn]
  · cases hmg : msg.mediaGroupId with
    | none => exact c1on_rest st msg
    | some gid =>
        dsimp only
        by_cases hgid : gid = ""
        · rw [if_pos hgid]
          exact c1on_rest st msg
        · rw [if_neg hgid]
          cases hlk : mediaGroupLookup st.mediaGroupFirstMessage now gid with
          | none => exact c1on_rest st msg
          | some first =>
              dsimp only
              by_cases hfid : first ≠ msg.messageId
              · rw [if_pos hfid]
                simp [C1PostOn]
              · rw [if_neg hfid]
                exact c1on_rest st msg

/-- C1 witness: the amended bookkeeping at a concrete banned user. -/
theorem c1_rejection_events_witness :
    C1PostOn (7 : Int)
      (video_to_circle_admission ⟨[7], [], [], []⟩ 0 ⟨7, 1, none, some 100, some 10⟩).outcome
      (video_to_circle_admission ⟨[7], [], [], []⟩ 0 ⟨7, 1, none, some 100, some 10⟩).events :=
  c1_rejection_events ⟨[7], [], [], []⟩ 0 ⟨7, 1, none, some 100, some 10⟩

/-- C1 (counterexample): a second part of a live media group is rejected
as a duplicate but records no lifecycle event, refuting "exactly one
lifecycle event per validation rejection". -/
theorem c1_counterexample :
    (video_to_circle_admission ⟨[], [("g", ⟨1, 0⟩)], [], []⟩ 10
        ⟨5, 2, some "g", some 100, some 10⟩).outcome = .duplicateGroup 1 ∧
    (video_to_circle_admission ⟨[], [("g", ⟨1, 0⟩)], [], []⟩ 10
        ⟨5, 2, some "g", some 100, some 10⟩).events = [] := by
  exact ⟨rfl, rfl⟩

/-- Every admission decision is the ban rejection, a duplicate-group
rejection, or the decision of the remaining validations. -/
lemma admission_outcome_cases (st : HandlersState) (now : Nat) (msg : Submission) :
    (video_to_circle_admission st now msg).outcome = .bannedBlock ∨
    (∃ f, (video_to_circle_admission st now msg).outcome = .duplicateGroup f) ∨
    (video_to_circle_admission st now msg).outcome = (admission_rest st msg).1 := by
  unfold video_to_circle_admission admission_group
  split_ifs with hban
  · exact .inl rfl
  · cases msg.mediaGroupId with
    | none => exact .inr (.inr rfl)
    | some gid =>
        dsimp only
        by_cases hgid : gid = ""
        · rw [if_pos hgid]
          exact .inr (.inr rfl)
        · rw [if_neg hgid]
          cases mediaGroupLookup st.mediaGroupFirstMessage now gid with
          | none => exact .inr (.inr rfl)
          | some first =>
              dsimp only
              by_cases hfid : first ≠ msg.messageId
              · rw [if_pos hfid]
                exact .inr (.inl ⟨first, rfl⟩)
              · rw [if_neg hfid]
                exact .inr (.inr rfl)

/-- C8: a submission that reaches the duration checks (not banned, no
duplicate group part, user idle, size below the limit) with known
duration `d` is rejected `duration_limit` if `d > 60`; with effect
`meme`, also `duration_limit_for_meme` if `55 < d ≤ 60` even though the
general check alone would pass; in the rejected case no transform
subprocess is ever invoked. -/
theorem c8_duration_checks (st : HandlersState) (now : Nat) (msg : Submission)
    (d : Int) (hban : ¬(msg.userId ≠ 0 ∧ msg.userId ∈ st.banned))
    (hgrp : groupPass st now msg) (hbusy : msg.userId ∉ st.userLocksHeld)
    (hsize : sizeTooBig msg.fileSize = false) (hdur : msg.duration = some d) :
    (60 < d → (video_to_circle_admission st now msg).outcome = .rejectedDuration) ∧
    (effectOf st msg.userId = "meme" → 55 < d → d ≤ 60 →
      (video_to_circle_admission st now msg).outcome = .rejectedMemeDuration) ∧
    (60 < d → ∀ env fs input_file output_file,
      (handle st now msg env fs input_file output_file).invocation = none) := by
  obtain ⟨ho, _⟩ := admission_outcome_events st now msg hban hgrp
  have hlong : ∀ h60 : 60 < d,
      (video_to_circle_admission st now msg).outcome = .rejectedDuration := by
    intro h60
    rw [ho]
    simp [admission_rest, hbusy, hsize, hdur, durOver, h60]
  refine ⟨hlong, ?_, ?_⟩
  · intro heff h55 h60le
    rw [ho]
    have h60f : ¬(60 < d) := not_lt.mpr h60le
    simp [admission_rest, hbusy, hsize, hdur, durOver, h60f, h55, heff]
  · intro h60 env fs input_file output_file
    have h := hlong h60
    simp [handle, h]

/-- C8 witness: duration 70 is rejected `duration_limit`; with effect
`meme`, duration 56 is rejected `duration_limit_for_meme`. -/
theorem c8_duration_checks_witness :
    ((60 : Int) < 70 ∧
      (video_to_circle_admission ⟨[], [], [], []⟩ 0
        ⟨7, 1, none, some 100, some 70⟩).outcome = .rejectedDuration) ∧
    ((55 : Int) < 56 ∧ (56 : Int) ≤ 60 ∧
      (video_to_circle_admission ⟨[], [], [], [(7, "meme")]⟩ 0
        ⟨7, 1, none, some 100, some 56⟩).outcome = .rejectedMemeDuration) :=
  ⟨⟨by norm_num,
    (c8_duration_checks ⟨[], [], [], []⟩ 0 ⟨7, 1, none, some 100, some 70⟩ 70
      (by simp) (by simp [groupPass]) (by simp) (by decide) rfl).1 (by norm_num)⟩,
   by norm_num, by norm_num,
   (c8_duration_checks ⟨[], [], [], [(7, "meme")]⟩ 0 ⟨7, 1, none, some 100, some 56⟩ 56
      (by simp) (by simp [groupPass]) (by simp) (by decide) rfl).2.1 (by decide)
      (by norm_num) (by norm_num)⟩

/-- C10: the size rejection fires only when the file size is known and
the duration rejections only when the duration is known; a submission
passing the earlier gates with both unknown proceeds to transcode. -/
theorem c10_missing_metadata (st : HandlersState) (now : Nat) (msg : Submission) :
    (msg.fileSize = none →
      (video_to_circle_admission st now msg).outcome ≠ .rejectedFileSize) ∧
    (msg.duration = none →
      (video_to_circle_admission st now msg).outcome ≠ .rejectedDuration ∧
      (video_to_circle_admission st now msg).outcome ≠ .rejectedMemeDuration) ∧
    (¬(msg.userId ≠ 0 ∧ msg.userId ∈ st.banned) → groupPass st now msg →
      msg.userId ∉ st.userLocksHeld → msg.fileSize = none → msg.duration = none →
      (video_to_circle_admission st now msg).outcome
        = .proceed (effectOf st msg.userId)) := by
  have hrest_size : msg.fileSize = none →
      (admission_rest st msg).1 ≠ .rejectedFileSize := by
    intro h
    unfold admission_rest
    split_ifs with h1 h2 <;> simp_all [sizeTooBig]
  have hrest_dur : msg.duration = none →
      (admission_rest st msg).1 ≠ .rejectedDuration ∧
      (admission_rest st msg).1 ≠ .rejectedMemeDuration := by
    intro h
    unfold admission_rest
    split_ifs with h1 h2 h3 h4 <;> simp_all [durOver]
  refine ⟨?_, ?_, ?_⟩
  · intro h
    rcases admission_outcome_cases st now msg with hc | ⟨f, hc⟩ | hc <;> rw [hc]
    · simp
    · simp
    · exact hrest_size h
  · intro h
    rcases admission_outcome_cases st now msg with hc | ⟨f, hc⟩ | hc <;> rw [hc]
    · simp
    · simp
    · exact hrest_dur h
  · intro hban hgrp hbusy hfs hdur
    obtain ⟨ho, _⟩ := admission_outcome_events st now msg hban hgrp
    rw [ho]
    simp [admission_rest, hbusy, hfs, hdur, sizeTooBig, durOver]

/-- C10 witness: a submission with unknown size and duration proceeds
with the `normal` effect. -/
theorem c10_missing_metadata_witness :
    (video_to_circle_admission ⟨[], [], [], []⟩ 0
      ⟨7, 1, none, none, none⟩).outcome = .proceed "normal" :=
  (c10_missing_metadata ⟨[], [], [], []⟩ 0 ⟨7, 1, none, none, none⟩).2.2
    (by simp) (by simp [groupPass]) (by simp) rfl rfl

/-- Looking up a group key right after it was stored finds the stored
part while the 300-second TTL has not elapsed, and nothing after. -/
lemma mediaGroupLookup_insert (m : List (String × GroupEntry)) (now : Nat)
    (gid : String) (mid : Int) (t : Nat) :
    mediaGroupLookup (mediaGroupInsert m now gid mid) t gid =
      if t ≤ now + 300 then some mid else none := by
  unfold mediaGroupLookup mediaGroupInsert
  rw [List.find?_cons_of_pos _ (by simp)]

/-- The remaining validations never produce a duplicate-group rejection. -/
lemma admission_rest_ne_dup (st : HandlersState) (msg : Submission) (f : Int) :
    (admission_rest st msg).1 ≠ .duplicateGroup f := by
  unfold admission_rest
  split_ifs <;> simp

/-- A fresh (non-live) group key stores the part id and is not rejected
as a duplicate. -/
lemma admission_media_fresh (st : HandlersState) (now : Nat) (msg : Submission)
    (gid : String) (hban : ¬(msg.userId ≠ 0 ∧ msg.userId ∈ st.banned))
    (hmg : msg.mediaGroupId = some gid) (hgid : gid ≠ "")
    (hfresh : mediaGroupLookup st.mediaGroupFirstMessage now gid = none) :
    (video_to_circle_admission st now msg).mediaGroupFirstMessage
      = mediaGroupInsert st.mediaGroupFirstMessage now gid msg.messageId ∧
    (∀ f, (video_to_circle_admission st now msg).outcome ≠ .duplicateGroup f) := by
  unfold video_to_circle_admission admission_group
  rw [if_neg hban]
  simp only [hmg]
  rw [if_neg hgid, hfresh]
  exact ⟨rfl, fun f => admission_rest_ne_dup st msg f⟩

/-- A live group key with a different part id is rejected as a duplicate
carrying the recorded first part id. -/
lemma admission_dup (st : HandlersState) (now : Nat) (msg : Submission)
    (gid : String) (first : Int)
    (hban : ¬(msg.userId ≠ 0 ∧ msg.userId ∈ st.banned))
    (hmg : msg.mediaGroupId = some gid) (hgid : gid ≠ "")
    (hlk : mediaGroupLookup st.mediaGroupFirstMessage now gid = some first)
    (hne : first ≠ msg.messageId) :
    (video_to_circle_admission st now msg).outcome = .duplicateGroup first := by
  unfold video_to_circle_admission admission_group
  rw [if_neg hban]
  simp only [hmg]
  rw [if_neg hgid, hlk]
  dsimp only
  rw [if_pos hne]

/-- The duplicate-suppression behaviour C6 describes, over one process
state `st` with a fresh group key `g`: the first part is not rejected as
a duplicate; a different part within the TTL is rejected as a duplicate
of the first; a re-delivery of the first part id within the TTL is not
rejected; after the TTL a new part of the same group is again not
rejected and is recorded as the new first part. -/
def C6Post (st : HandlersState) (now0 now1 nowR now2 : Nat) (g : String)
    (msgA msgB msgR msgC : Submission) : Prop :=
  (∀ f, (video_to_circle_admission st now0 msgA).outcome ≠ .duplicateGroup f) ∧
  (video_to_circle_admission
      { st with mediaGroupFirstMessage :=
          (video_to_circle_admission st now0 msgA).mediaGroupFirstMessage }
      now1 msgB).outcome = .duplicateGroup msgA.messageId ∧
  (∀ f, (video_to_circle_admission
      { st with mediaGroupFirstMessage :=
          (video_to_circle_admission st now0 msgA).mediaGroupFirstMessage }
      nowR msgR).outcome ≠ .duplicateGroup f) ∧
  (∀ f, (video_to_circle_admission
      { st with mediaGroupFirstMessage :=
          (video_to_circle_admission st now0 msgA).mediaGroupFirstMessage }
      now2 msgC).outcome ≠ .duplicateGroup f) ∧
  mediaGroupLookup
    (video_to_circle_admission
      { st with mediaGroupFirstMessage :=
          (video_to_circle_admission st now0 msgA).mediaGroupFirstMessage }
      now2 msgC).mediaGroupFirstMessage now2 g = some msgC.messageId

/-- C6: for two grouped-upload parts with the same (non-empty) group key
and different part ids within 300 seconds, the first is accepted and the
second rejected as a duplicate; a re-delivery of the first part id is
accepted again; and once more than 300 seconds have passed since the
first part (independently of job completion), a new part of the same
group is accepted and recorded as a fresh first part. -/
theorem c6_media_group (st : HandlersState) (now0 now1 nowR now2 : Nat)
    (g : String) (msgA msgB msgR msgC : Submission) (hg : g ≠ "")
    (hA : msgA.mediaGroupId = some g)
    (hAban : ¬(msgA.userId ≠ 0 ∧ msgA.userId ∈ st.banned))
    (hfresh : mediaGroupLookup st.mediaGroupFirstMessage now0 g = none)
    (hB : msgB.mediaGroupId = some g)
    (hBban : ¬(msgB.userId ≠ 0 ∧ msgB.userId ∈ st.banned))
    (hBid : msgB.messageId ≠ msgA.messageId) (ht1 : now1 < now0 + 300)
    (hR : msgR.mediaGroupId = some g)
    (hRban : ¬(msgR.userId ≠ 0 ∧ msgR.userId ∈ st.banned))
    (hRid : msgR.messageId = msgA.messageId) (htR : nowR < now0 + 300)
    (hC : msgC.mediaGroupId = some g)
    (hCban : ¬(msgC.userId ≠ 0 ∧ msgC.userId ∈ st.banned))
    (ht2 : now0 + 300 < now2) :
    C6Post st now0 now1 nowR now2 g msgA msgB msgR msgC := by
  obtain ⟨hmedA, hAnd⟩ := admission_media_fresh st now0 msgA g hAban hA hg hfresh
  have hlk1 : ∀ t, t ≤ now0 + 300 →
      mediaGroupLookup
        (video_to_circle_admission st now0 msgA).mediaGroupFirstMessage t g
        = some msgA.messageId := by
    intro t ht
    rw [hmedA, mediaGroupLookup_insert, if_pos ht]
  have hlk2 : mediaGroupLookup
      (video_to_circle_admission st now0 msgA).mediaGroupFirstMessage now2 g
      = none := by
    rw [hmedA, mediaGroupLookup_insert, if_neg (by omega)]
  refine ⟨hAnd, ?_, ?_, ?_, ?_⟩
  · exact admission_dup _ now1 msgB g msgA.messageId hBban hB hg
      (hlk1 now1 (Nat.le_of_lt ht1)) (Ne.symm hBid)
  · intro f
    have hgrp : groupPass
        { st with mediaGroupFirstMessage :=
            (video_to_circle_admission st now0 msgA).mediaGroupFirstMessage }
        nowR msgR := by
      intro gid hgid _
      rw [hR] at hgid
      cases hgid
      right
      rw [hRid]
      exact hlk1 nowR (Nat.le_of_lt htR)
    obtain ⟨ho, _⟩ := admission_outcome_events
      { st with mediaGroupFirstMessage :=
          (video_to_circle_admission st now0 msgA).mediaGroupFirstMessage }
      nowR msgR hRban hgrp
    rw [ho]
    exact admission_rest_ne_dup _ msgR f
  · exact (admission_media_fresh
      { st with mediaGroupFirstMessage :=
          (video_to_circle_admission st now0 msgA).mediaGroupFirstMessage }
      now2 msgC g hCban hC hg hlk2).2
  · rw [(admission_media_fresh
      { st with mediaGroupFirstMessage :=
          (video_to_circle_admission st now0 msgA).mediaGroupFirstMessage }
      now2 msgC g hCban hC hg hlk2).1,
      mediaGroupLookup_insert, if_pos (by omega)]

/-- C6 witness: the scenario at concrete times 0, 100, 200, 400 with
parts 1, 2, 1, 3 of group "g". -/
theorem c6_media_group_witness :
    C6Post ⟨[], [], [], []⟩ 0 100 200 400 "g"
      ⟨5, 1, some "g", none, none⟩ ⟨5, 2, some "g", none, none⟩
      ⟨5, 1, some "g", none, none⟩ ⟨5, 3, some "g", none, none⟩ :=
  c6_media_group ⟨[], [], [], []⟩ 0 100 200 400 "g"
    ⟨5, 1, some "g", none, none⟩ ⟨5, 2, some "g", none, none⟩
    ⟨5, 1, some "g", none, none⟩ ⟨5, 3, some "g", none, none⟩
    (by simp) rfl (by simp) rfl rfl (by simp) (by decide) (by norm_num)
    rfl (by simp) rfl (by norm_num) rfl (by simp) (by norm_num)

/-- The builder never raises for a non-`meme` effect. -/
lemma _build_ffmpeg_cmd_ok (input_file output_file : String) (d : ℚ) (eff : String)
    (audio : Bool) (env : BuilderEnv) (h : eff ≠ "meme") :
    ∃ s, _build_ffmpeg_cmd input_file output_file d eff audio env = .ok s := by
  unfold _build_ffmpeg_cmd
  dsimp only
  split_ifs <;> simp_all

/-- The command dispatch of `convert_video_to_circle` always produces a
command: `meme` goes to `_build_meme_insert_cmd`, everything else cannot
hit the builder's `meme` branch. -/
lemma convert_cmd_ok (input_file output_file : String) (d : ℚ) (eff : String)
    (audio : Bool) (env : BuilderEnv) :
    ∃ s, convert_cmd input_file output_file d eff audio env = .ok s := by
  unfold convert_cmd
  split_ifs with h
  · exact ⟨_, rfl⟩
  · exact _build_ffmpeg_cmd_ok input_file output_file d eff audio env h

/-- The input temp file never survives cleanup. -/
lemma not_mem_cleanup_left (input_file output_file : String) (l : List String) :
    input_file ∉ cleanup input_file output_file l := by
  simp [cleanup, List.mem_filter]

/-- The output temp file never survives cleanup. -/
lemma not_mem_cleanup_right (input_file output_file : String) (l : List String) :
    output_file ∉ cleanup input_file output_file l := by
  simp [cleanup, List.mem_filter]

/-- Cleanup is idempotent. -/
lemma cleanup_idem (input_file output_file : String) (l : List String) :
    cleanup input_file output_file (cleanup input_file output_file l)
      = cleanup input_file output_file l := by
  unfold cleanup
  rw [List.filter_filter]
  exact List.filter_congr (fun a _ => by rw [Bool.and_self])

/-- Every branch of `convert_video_to_circle` returns a cleaned file
system (the `finally` block runs on every path). -/
lemma convert_fs_cleanup (uid : Int) (eff : String) (env : ConvertEnv)
    (fs : List String) (input_file output_file : String) :
    ∃ l, (convert_video_to_circle uid eff env fs input_file output_file).fs
      = cleanup input_file output_file l := by
  obtain ⟨s, hs⟩ := convert_cmd_ok input_file output_file env.duration eff
    env.hasAudio env.builder
  unfold convert_video_to_circle
  dsimp only
  rw [hs]
  dsimp only
  split_ifs <;> exact ⟨_, rfl⟩

/-- The resource property C4 asserts of a finished submission: both temp
files are absent afterwards, and the cleanup action is idempotent. -/
def C4Post (input_file output_file : String) (r : HandleResult) : Prop :=
  input_file ∉ r.fs ∧ output_file ∉ r.fs ∧
  ∀ l : List String, cleanup input_file output_file (cleanup input_file output_file l)
    = cleanup input_file output_file l

/-- C4: on every terminal path of a submission — every validation
rejection (conversion never starts, temp names never materialize) and
every conversion outcome (download failure, probe failure, transcode
failure, timeout, delivery failure, success), the `finally` cleanup
leaves both temp files absent, and cleanup is idempotent. -/
theorem c4_cleanup (st : HandlersState) (now : Nat) (msg : Submission)
    (env : ConvertEnv) (fs : List String) (input_file output_file : String)
    (hi : input_file ∉ fs) (ho : output_file ∉ fs) :
    C4Post input_file output_file
      (handle st now msg env fs input_file output_file) := by
  unfold handle
  dsimp only
  cases he : (video_to_circle_admission st now msg).outcome with
  | proceed eff =>
      dsimp only
      obtain ⟨l, hl⟩ := convert_fs_cleanup msg.userId eff env fs input_file
        output_file
      unfold C4Post
      dsimp only
      rw [hl]
      exact ⟨not_mem_cleanup_left input_file output_file l,
        not_mem_cleanup_right input_file output_file l,
        fun l' => cleanup_idem input_file output_file l'⟩
  | bannedBlock => exact ⟨hi, ho, fun l' => cleanup_idem input_file output_file l'⟩
  | duplicateGroup f =>
      exact ⟨hi, ho, fun l' => cleanup_idem input_file output_file l'⟩
  | busy => exact ⟨hi, ho, fun l' => cleanup_idem input_file output_file l'⟩
  | rejectedFileSize =>
      exact ⟨hi, ho, fun l' => cleanup_idem input_file output_file l'⟩
  | rejectedDuration =>
      exact ⟨hi, ho, fun l' => cleanup_idem input_file output_file l'⟩
  | rejectedMemeDuration =>
      exact ⟨hi, ho, fun l' => cleanup_idem input_file output_file l'⟩

/-- A sample external-interaction environment: everything succeeds,
duration 10, no audio. -/
def sampleEnv : ConvertEnv :=
  ⟨true, false, true, 10, false, ⟨0, 0, 0, false, "", [], 0, 0⟩, false, 0, false, true⟩

/-- C4 witness: the cleanup property at a concrete successful run. -/
theorem c4_cleanup_witness :
    ("input_a.mp4" ∉ ([] : List String) ∧ "circle_b.mp4" ∉ ([] : List String)) ∧
    C4Post "input_a.mp4" "circle_b.mp4"
      (handle ⟨[], [], [], []⟩ 0 ⟨7, 1, none, none, none⟩ sampleEnv []
        "input_a.mp4" "circle_b.mp4") :=
  ⟨⟨by simp, by simp⟩,
    c4_cleanup ⟨[], [], [], []⟩ 0 ⟨7, 1, none, none, none⟩ sampleEnv []
      "input_a.mp4" "circle_b.mp4" (by simp) (by simp)⟩

/-- The timeout property C5 asserts of a conversion run: terminal status
is `Timeout`, exactly one `video_error` event is recorded, and every
`video_error` event recorded carries the error string `timeout_5m`. -/
def C5Post (r : ConvertResult) : Prop :=
  r.outcome = .timeout ∧
  (r.events.filter (fun e => e.name == "video_error")).length = 1 ∧
  ∀ e ∈ r.events, e.name = "video_error" → e.error = some "timeout_5m"

/-- C5: for every supervised transcode whose subprocess is still running
when the elapsed wall time exceeds 300 seconds (a run that reached the
spawn: download and probe succeeded; with a known sender, as the guard
`if user_id:` skips logging otherwise), the supervisor kills the process,
reports `Timeout`, and records exactly one `video_error` event with
error `timeout_5m` (video_processing.py lines 295-310). -/
theorem c5_timeout (uid : Int) (eff : String) (env : ConvertEnv)
    (fs : List String) (input_file output_file : String) (hu : uid ≠ 0)
    (hdl : env.downloadOk = true) (hp : env.probeOk = true)
    (ht : env.timedOut = true) :
    C5Post (convert_video_to_circle uid eff env fs input_file output_file) := by
  obtain ⟨s, hs⟩ := convert_cmd_ok input_file output_file env.duration eff
    env.hasAudio env.builder
  unfold convert_video_to_circle
  dsimp only
  rw [hs]
  dsimp only
  rw [hdl, hp, ht]
  simp only [Bool.true_eq_false, if_false, if_true]
  unfold C5Post startEvent errorEvent
  rw [if_pos hu, if_pos hu]
  refine ⟨rfl, ?_, ?_⟩
  · simp [List.filter]
  · intro e he hname
    simp at he
    rcases he with rfl | rfl
    · simp at hname
    · rfl

/-- C5 witness: the timeout property at a concrete timed-out run. -/
theorem c5_timeout_witness :
    (7 : Int) ≠ 0 ∧
    C5Post (convert_video_to_circle 7 "normal"
      ⟨true, false, true, 10, false, ⟨0, 0, 0, false, "", [], 0, 0⟩, true, 0, false,
        true⟩ [] "input_a.mp4" "circle_b.mp4") :=
  ⟨by norm_num,
    c5_timeout 7 "normal"
      ⟨true, false, true, 10, false, ⟨0, 0, 0, false, "", [], 0, 0⟩, true, 0, false,
        true⟩ [] "input_a.mp4" "circle_b.mp4" (by norm_num) rfl rfl rfl⟩

/-- C2 (amended): every job that reaches the transcode stage invokes the
transform tool through `asyncio.create_subprocess_shell`, i.e. with a
single shell command string (into which the input and output paths are
interpolated), never with a structured argument list. -/
theorem c2_shell_invocation (uid : Int) (eff : String) (env : ConvertEnv)
    (fs : List String) (input_file output_file : String)
    (hdl : env.downloadOk = true) (hp : env.probeOk = true) :
    ∃ s, (convert_video_to_circle uid eff env fs input_file output_file).invocation
      = some (Invocation.shell s) := by
  obtain ⟨c, hc⟩ := convert_cmd_ok input_file output_file env.duration eff
    env.hasAudio env.builder
  unfold convert_video_to_circle
  dsimp only
  rw [hc]
  dsimp only
  rw [hdl, hp]
  simp only [Bool.true_eq_false, if_false]
  split_ifs <;> exact ⟨c, rfl⟩

/-- C2 witness: the shell-string invocation at a concrete run. -/
theorem c2_shell_invocation_witness :
    ∃ s, (convert_video_to_circle 7 "normal" sampleEnv [] "input_a.mp4"
      "circle_b.mp4").invocation = some (Invocation.shell s) :=
  c2_shell_invocation 7 "normal" sampleEnv [] "input_a.mp4" "circle_b.mp4" rfl rfl

set_option maxRecDepth 100000 in
/-- C2 (counterexample): a concrete job (duration 10, effect `normal`,
no audio) invokes the transform tool with a single shell command string
into which the quoted input and output paths are interpolated — not with
a structured argument list — refuting the claim as stated. -/
theorem c2_counterexample :
    (convert_video_to_circle 7 "normal" sampleEnv [] "input_a.mp4"
        "circle_b.mp4").invocation
      = some (Invocation.shell
          (_ffmpeg_tail_cmd "input_a.mp4" "circle_b.mp4" 10 8 "normal" false)) ∧
    strInside (_ffmpeg_tail_cmd "input_a.mp4" "circle_b.mp4" 10 8 "normal" false)
      "\"input_a.mp4\"" = true ∧
    strInside (_ffmpeg_tail_cmd "input_a.mp4" "circle_b.mp4" 10 8 "normal" false)
      "\"circle_b.mp4\"" = true := by
  exact ⟨rfl, by decide, by decide⟩

/-- Setting the phase of one task leaves every other task unchanged. -/
lemma getTask_setPhase_ne (s : GateSys) (i j : Nat) (u : Int) (p : Phase)
    (h : i ≠ j) : getTask (setPhase s i u p) j = getTask s j := by
  unfold getTask setPhase
  exact List.get?_set_ne _ _ h

/-- Setting the phase of an existing task stores the new phase. -/
lemma getTask_setPhase_self (s : GateSys) (i : Nat) (u : Int) (p : Phase)
    (t : GTask) (h : getTask s i = some t) :
    getTask (setPhase s i u p) i = some ⟨u, p⟩ := by
  unfold getTask setPhase
  rw [List.get?_set_eq]
  unfold getTask at h
  rw [h]
  rfl

/-- The invariant of the global slot: at most one holder, and every
holder is a task in transcode. -/
def GateInv (s : GateSys) : Prop :=
  s.globalHolders.length ≤ 1 ∧
  ∀ i ∈ s.globalHolders, ∃ u, getTask s i = some ⟨u, Phase.inTranscode⟩

/-- Every gate step preserves the global-slot invariant. -/
lemma gateInv_step {s s' : GateSys} (hinv : GateInv s) (hstep : GateStep s s') :
    GateInv s' := by
  obtain ⟨hlen, hhold⟩ := hinv
  cases hstep with
  | busy hti hu =>
      rename_i i u b
      refine ⟨hlen, fun j hj => ?_⟩
      obtain ⟨w, hw⟩ := hhold j hj
      have hne : i ≠ j := by
        intro hij
        subst hij
        rw [hti] at hw
        simp at hw
      exact ⟨w, (getTask_setPhase_ne s i j u _ hne).trans hw⟩
  | rejectOther hti hu =>
      rename_i i u
      refine ⟨hlen, fun j hj => ?_⟩
      obtain ⟨w, hw⟩ := hhold j hj
      have hne : i ≠ j := by
        intro hij
        subst hij
        rw [hti] at hw
        simp at hw
      exact ⟨w, (getTask_setPhase_ne s i j u _ hne).trans hw⟩
  | acquireUser hti hu =>
      rename_i i u
      refine ⟨hlen, fun j hj => ?_⟩
      obtain ⟨w, hw⟩ := hhold j hj
      have hne : i ≠ j := by
        intro hij
        subst hij
        rw [hti] at hw
        simp at hw
      exact ⟨w, (getTask_setPhase_ne s i j u _ hne).trans hw⟩
  | acquireGlobal hti hemp =>
      rename_i i u
      refine ⟨by simp, fun j hj => ?_⟩
      simp at hj
      subst hj
      exact ⟨u, getTask_setPhase_self s j u _ _ hti⟩
  | finish hti =>
      rename_i i u
      refine ⟨le_trans (List.Sublist.length_le (List.erase_sublist i s.globalHolders))
        hlen, fun j hj => ?_⟩
      have hjmem : j ∈ s.globalHolders := List.mem_of_mem_erase hj
      obtain ⟨w, hw⟩ := hhold j hjmem
      have hne : i ≠ j := by
        intro hij
        subst hij
        cases hcase : s.globalHolders with
        | nil =>
            rw [hcase] at hjmem
            exact absurd hjmem (List.not_mem_nil _)
        | cons a t =>
            have ht : t = [] := by
              rw [hcase] at hlen
              simp at hlen
              exact hlen
            subst ht
            rw [hcase] at hj
            by_cases hai : a == i
            · simp [List.erase, hai] at hj
            · simp [List.erase, hai] at hj
              subst hj
              simp at hai
      exact ⟨w, (getTask_setPhase_ne s i j u _ hne).trans hw⟩

/-- A busy-rejected task stays busy-rejected under every step. -/
lemma rejectedBusy_absorbing {s s' : GateSys} (hstep : GateStep s s') (i : Nat)
    (u : Int) (h : getTask s i = some ⟨u, Phase.rejectedBusy⟩) :
    getTask s' i = some ⟨u, Phase.rejectedBusy⟩ := by
  cases hstep with
  | busy htj huj =>
      rename_i j v b
      by_cases hij : j = i
      · subst hij
        rw [htj] at h
        simp at h
      · exact (getTask_setPhase_ne s j i v _ hij).trans h
  | rejectOther htj huj =>
      rename_i j v
      by_cases hij : j = i
      · subst hij
        rw [htj] at h
        simp at h
      · exact (getTask_setPhase_ne s j i v _ hij).trans h
  | acquireUser htj huj =>
      rename_i j v
      by_cases hij : j = i
      · subst hij
        rw [htj] at h
        simp at h
      · exact (getTask_setPhase_ne s j i v _ hij).trans h
  | acquireGlobal htj hemp =>
      rename_i j v
      by_cases hij : j = i
      · subst hij
        rw [htj] at h
        simp at h
      · exact (getTask_setPhase_ne s j i v _ hij).trans h
  | finish htj =>
      rename_i j v
      by_cases hij : j = i
      · subst hij
        rw [htj] at h
        simp at h
      · exact (getTask_setPhase_ne s j i v _ hij).trans h

/-- An arrived task whose user lock is held can only be rejected busy:
any step either leaves it untouched or marks it `rejectedBusy` while
changing no lock and no global-slot holder. -/
lemma arrived_busy_step {s s' : GateSys} (hstep : GateStep s s') (i : Nat)
    (u : Int) (b : Bool) (hi : getTask s i = some ⟨u, Phase.arrived b⟩)
    (hl : u ∈ s.userLocks) :
    getTask s' i = some ⟨u, Phase.arrived b⟩ ∨
    (getTask s' i = some ⟨u, Phase.rejectedBusy⟩ ∧ s'.userLocks = s.userLocks ∧
      s'.globalHolders = s.globalHolders) := by
  cases hstep with
  | busy htj huj =>
      rename_i j v c
      by_cases hij : j = i
      · subst hij
        rw [htj] at hi
        simp at hi
        right
        refine ⟨?_, rfl, rfl⟩
        rw [← hi.1]
        exact getTask_setPhase_self s j v _ _ htj
      · exact .inl ((getTask_setPhase_ne s j i v _ hij).trans hi)
  | rejectOther htj huj =>
      rename_i j v
      by_cases hij : j = i
      · subst hij
        rw [htj] at hi
        simp at hi
        exact absurd (hi.1 ▸ hl) huj
      · exact .inl ((getTask_setPhase_ne s j i v _ hij).trans hi)
  | acquireUser htj huj =>
      rename_i j v
      by_cases hij : j = i
      · subst hij
        rw [htj] at hi
        simp at hi
        exact absurd (hi.1 ▸ hl) huj
      · exact .inl ((getTask_setPhase_ne s j i v _ hij).trans hi)
  | acquireGlobal htj hemp =>
      rename_i j v
      by_cases hij : j = i
      · subst hij
        rw [htj] at hi
        simp at hi
      · exact .inl ((getTask_setPhase_ne s j i v _ hij).trans hi)
  | finish htj =>
      rename_i j v
      by_cases hij : j = i
      · subst hij
        rw [htj] at hi
        simp at hi
      · exact .inl ((getTask_setPhase_ne s j i v _ hij).trans hi)

/-- The concurrency property C7 asserts of a reachable gate state: the
global slot has at most one holder, every holder is in transcode, a
busy-rejected task never holds the slot and stays rejected forever, and
an arrival while the user's lock is held can only be rejected busy,
acquiring nothing. -/
def C7Post (s : GateSys) : Prop :=
  s.globalHolders.length ≤ 1 ∧
  (∀ i ∈ s.globalHolders, ∃ u, getTask s i = some ⟨u, Phase.inTranscode⟩) ∧
  (∀ i u, getTask s i = some ⟨u, Phase.rejectedBusy⟩ → i ∉ s.globalHolders) ∧
  (∀ s', GateStep s s' → ∀ i u,
    getTask s i = some ⟨u, Phase.rejectedBusy⟩ →
    getTask s' i = some ⟨u, Phase.rejectedBusy⟩) ∧
  (∀ s', GateStep s s' → ∀ i u b,
    getTask s i = some ⟨u, Phase.arrived b⟩ → u ∈ s.userLocks →
    getTask s' i = some ⟨u, Phase.arrived b⟩ ∨
    (getTask s' i = some ⟨u, Phase.rejectedBusy⟩ ∧ s'.userLocks = s.userLocks ∧
      s'.globalHolders = s.globalHolders))

/-- C7: in every reachable gate state the global slot has at most one
holder; a submission arriving while its user's per-user lock is held is
rejected busy, acquires no lock and no slot, and — being rejected for
good — never acquires the global slot later. -/
theorem c7_gate (s : GateSys) (h : GateReachable s) : C7Post s := by
  have hinv : GateInv s := by
    induction h with
    | init ts hts => exact ⟨by simp, by simp⟩
    | step hr hst ih => exact gateInv_step ih hst
  refine ⟨hinv.1, hinv.2, ?_, ?_, ?_⟩
  · intro i u hi hmem
    obtain ⟨w, hw⟩ := hinv.2 i hmem
    rw [hi] at hw
    simp at hw
  · intro s' hst i u hi
    exact rejectedBusy_absorbing hst i u hi
  · intro s' hst i u b hi hl
    exact arrived_busy_step hst i u b hi hl

/-- C7 witness: the property at a concrete one-task start state. -/
theorem c7_gate_witness :
    GateReachable (⟨[⟨5, Phase.arrived true⟩], [], []⟩ : GateSys) ∧
    C7Post ⟨[⟨5, Phase.arrived true⟩], [], []⟩ := by
  have hreach : GateReachable (⟨[⟨5, Phase.arrived true⟩], [], []⟩ : GateSys) :=
    GateReachable.init [⟨5, Phase.arrived true⟩]
      (by
        intro t ht
        simp at ht
        subst ht
        exact ⟨true, rfl⟩)
  exact ⟨hreach, c7_gate _ hreach⟩

end Krujok
